import Mathlib

/-!
Shallow embedding of `src/context.rs` of the `failure` repository: the
generic error-context wrapper `Context<D>` in its two build variants.

The `with_std!` block yields the full-featured variant (modelled in
namespace `WithStd`): `Context<D>` holds the message and an
`Either<Backtrace, Error>` cause representation. The `without_std!` block
yields the reduced variant (namespace `WithoutStd`): `Context<D>` holds
only the message.

The root error type `Error`, the backtrace facility `Backtrace` and the
`Fail` trait live elsewhere in the repository (not under `src/`); they are
modelled from the spec, which treats them as opaque external
collaborators. A message type `D` is carried as a type parameter, and its
`Display` rendering as an explicit function `dispD : D → String`;
`write!(f, "{}", x)` on a `D` becomes `dispD x`, on a `Backtrace` or
`Error` it becomes the opaque debug text recorded in the value. The
impure call `Backtrace::new()` inside `Context::new` is modelled by
passing the freshly captured backtrace as an explicit argument.
-/

/-- Modelled from the spec: the backtrace facility (not under `src/`).
"An opaque, captured snapshot of the call stack"; the only operations the
component uses are capture (modelled as an explicit argument at each
capture site) and an opaque debug-renderable form, here `debugText`. -/
structure Backtrace where
  debugText : String
deriving DecidableEq, Repr

/-- Modelled from the spec: a value of the `Fail` capability set (not
under `src/`). The component only ever hands such values out by
reference; their own behaviour is opaque, so only the opaquely rendered
texts are recorded. -/
structure Fail where
  displayText : String
  debugText : String
deriving DecidableEq, Repr

/-- Modelled from the spec: the root polymorphic error type `Error` (not
under `src/`). Per the spec it "already carries a cause chain and its own
backtrace"; its inherent `cause()` yields a reference to the error's own
topmost cause (one hop down its chain, not the error itself), its
inherent `backtrace()` yields its own backtrace, and it has an opaque
debug rendering. The source's uses (`Some(error.cause())`,
`error.backtrace()` at type `&Backtrace`) fix both accessors as total. -/
structure Error where
  debugText : String
  topCause : Fail
  errBacktrace : Backtrace
deriving DecidableEq, Repr

/-- `Error::cause`: the error's own topmost cause (modelled from the
spec: "the prior error's cause, not the prior error itself"). -/
def Error.cause (e : Error) : Fail :=
  e.topCause

/-- `Error::backtrace`: the error's own backtrace (modelled from the
spec: errors "always [are] able to produce some backtrace reference"). -/
def Error.backtrace (e : Error) : Backtrace :=
  e.errBacktrace

namespace WithStd

/-- `enum Either<A, B> { This(A), That(B) }` from the `with_std!` block. -/
inductive Either (A B : Type) where
  | This : A → Either A B
  | That : B → Either A B
deriving DecidableEq, Repr

/-- `struct Context<D> { context: D, failure: Either<Backtrace, Error> }`
(full-featured variant). -/
structure Context (D : Type) where
  context : D
  failure : Either Backtrace Error
deriving DecidableEq, Repr

/-- `Context::new` (with_std): `failure = Either::This(Backtrace::new())`.
The backtrace captured by the impure `Backtrace::new()` call is passed as
the explicit argument `bt`. -/
def Context.new {D : Type} (context : D) (bt : Backtrace) : Context D :=
  { context := context, failure := Either.This bt }

/-- `Context::with_err` (with_std): `failure = Either::That(error.into())`.
The `E: Into<Error>` conversion is modelled as already applied, so the
argument is the converted `Error` value. -/
def Context.with_err {D : Type} (context : D) (e : Error) : Context D :=
  { context := context, failure := Either.That e }

/-- `Context::get_context` (with_std). -/
def Context.get_context {D : Type} (c : Context D) : D :=
  c.context

/-- `Either::backtrace`: the held backtrace, or the held error's own. -/
def Either.backtrace : Either Backtrace Error → Backtrace
  | Either.This bt => bt
  | Either.That e => e.backtrace

/-- `Either::cause`: `None` for `This`, `Some(error.cause())` for `That`. -/
def Either.cause : Either Backtrace Error → Option Fail
  | Either.This _ => none
  | Either.That e => some e.cause

/-- `Fail::cause` for `Context<D>` (with_std): `self.failure.cause()`. -/
def Context.cause {D : Type} (c : Context D) : Option Fail :=
  c.failure.cause

/-- `Fail::backtrace` for `Context<D>` (with_std):
`Some(self.failure.backtrace())`. -/
def Context.backtrace {D : Type} (c : Context D) : Option Backtrace :=
  some c.failure.backtrace

/-- `impl Debug for Either<Backtrace, Error>`: the debug form of the held
backtrace or error. -/
def Either.debugFmt : Either Backtrace Error → String
  | Either.This bt => bt.debugText
  | Either.That e => e.debugText

/-- `impl Display for Context<D>` (with_std): `write!(f, "{}", self.context)`. -/
def Context.displayFmt {D : Type} (dispD : D → String) (c : Context D) : String :=
  dispD c.context

/-- `impl Debug for Context<D>` (with_std):
`write!(f, "{:?}\n\n{}", self.failure, self.context)`. -/
def Context.debugFmt {D : Type} (dispD : D → String) (c : Context D) : String :=
  c.failure.debugFmt ++ "\n\n" ++ dispD c.context

/-- The full-featured `Context` values reachable through the public
construction paths: `new` and `with_err` are the only constructors, and
no other operation of the component produces a `Context`. -/
inductive Context.Reachable {D : Type} : Context D → Prop where
  | viaNew (m : D) (bt : Backtrace) : Context.Reachable (Context.new m bt)
  | viaWithErr (m : D) (e : Error) : Context.Reachable (Context.with_err m e)

end WithStd

namespace WithoutStd

/-- `struct Context<D> { context: D }` (reduced variant): only the
message, no cause representation at all. -/
structure Context (D : Type) where
  context : D
deriving DecidableEq, Repr

/-- `Context::new` (without_std): simply stores the message. -/
def Context.new {D : Type} (context : D) : Context D :=
  { context := context }

/-- `Context::get_context` (without_std). -/
def Context.get_context {D : Type} (c : Context D) : D :=
  c.context

/-- `Context::with_err` (without_std): `with_err<E: Fail>(context, _)`
discards the error value entirely. The reduced `Fail` bound is a pure
marker, so the discarded argument ranges over an arbitrary type `E`. -/
def Context.with_err {D : Type} {E : Type} (context : D) (_e : E) : Context D :=
  { context := context }

/-- `impl Display for Context<D>` (without_std): `write!(f, "{}", self.context)`. -/
def Context.displayFmt {D : Type} (dispD : D → String) (c : Context D) : String :=
  dispD c.context

/-- `impl Debug for Context<D>` (without_std): `write!(f, "{}", self.context)`. -/
def Context.debugFmt {D : Type} (dispD : D → String) (c : Context D) : String :=
  dispD c.context

end WithoutStd

/-- Claim C1: in both variants, displaying `Context::new(m)` yields
exactly the text of `m`; and displaying `Context::with_err(m, e)` yields
exactly the text of `m`, with no text of `e` in the Display output (the
output is literally `dispD m`, independent of `e`). -/
theorem C1_display_is_exactly_the_message (D : Type) (dispD : D → String)
    (m : D) (bt : Backtrace) (e : Error) (E : Type) (e₂ : E) :
    (WithStd.Context.new m bt).displayFmt dispD = dispD m ∧
    (WithStd.Context.with_err m e).displayFmt dispD = dispD m ∧
    (WithoutStd.Context.new m).displayFmt dispD = dispD m ∧
    (WithoutStd.Context.with_err m e₂).displayFmt dispD = dispD m := by
  exact ⟨rfl, rfl, rfl, rfl⟩

/-- Claim C2: in the full-featured variant, `Context::with_err(m, e).cause()`
is `Some` of `e`'s own cause (one hop down the prior error's chain, not
the prior error itself), and `Context::new(m).cause()` is `None`. -/
theorem C2_cause_delegates_one_hop (D : Type) (m : D) (e : Error) (bt : Backtrace) :
    (WithStd.Context.with_err m e).cause = some e.cause ∧
    (WithStd.Context.new m bt).cause = none := by
  exact ⟨rfl, rfl⟩

/-- Claim C3: in the full-featured variant, `Context::new(m).backtrace()`
is `Some` of the backtrace captured at construction;
`Context::with_err(m, e).backtrace()` is `Some` of the backtrace already
carried by `e` (no new capture happens: `with_err` takes no captured
backtrace at all); and `backtrace()` is `Some` on every `Context`. -/
theorem C3_backtrace_always_some (D : Type) (m : D) (bt : Backtrace) (e : Error)
    (c : WithStd.Context D) :
    (WithStd.Context.new m bt).backtrace = some bt ∧
    (WithStd.Context.with_err m e).backtrace = some e.backtrace ∧
    c.backtrace.isSome = true := by
  exact ⟨rfl, rfl, rfl⟩

/-- Claim C4: in the full-featured variant, every reachable `Context` was
built by `new` and holds the `This`/no-prior-cause arm with the captured
backtrace, or was built by `with_err` and holds the `That`/prior-error
arm with the converted error; no other combination is reachable. -/
theorem C4_constructor_determines_arm (D : Type) (c : WithStd.Context D)
    (h : c.Reachable) :
    (∃ m bt, c = WithStd.Context.new m bt ∧ c.failure = WithStd.Either.This bt) ∨
    (∃ m e, c = WithStd.Context.with_err m e ∧ c.failure = WithStd.Either.That e) := by
  cases h with
  | viaNew m bt => exact Or.inl ⟨m, bt, rfl, rfl⟩
  | viaWithErr m e => exact Or.inr ⟨m, e, rfl, rfl⟩

/-- Witness for C4 at a concrete reachable `Context`. -/
theorem C4_constructor_determines_arm_witness :
    (∃ m bt, WithStd.Context.new "msg" (Backtrace.mk "bt") =
        WithStd.Context.new m bt ∧
        (WithStd.Context.new "msg" (Backtrace.mk "bt")).failure =
          WithStd.Either.This bt) ∨
    (∃ m e, WithStd.Context.new "msg" (Backtrace.mk "bt") =
        WithStd.Context.with_err m e ∧
        (WithStd.Context.new "msg" (Backtrace.mk "bt")).failure =
          WithStd.Either.That e) :=
  C4_constructor_determines_arm String
    (WithStd.Context.new "msg" (Backtrace.mk "bt"))
    (WithStd.Context.Reachable.viaNew "msg" (Backtrace.mk "bt"))

/-- Claim C5: in the full-featured variant, the Debug output of every
`Context` is the debug form of its held cause arm (the backtrace's for
`new`, the prior error's for `with_err`), then two newlines, then the
message text. -/
theorem C5_debug_is_cause_blank_line_message (D : Type) (dispD : D → String)
    (m : D) (bt : Backtrace) (e : Error) (c : WithStd.Context D) :
    (WithStd.Context.new m bt).debugFmt dispD = bt.debugText ++ "\n\n" ++ dispD m ∧
    (WithStd.Context.with_err m e).debugFmt dispD = e.debugText ++ "\n\n" ++ dispD m ∧
    c.debugFmt dispD = c.failure.debugFmt ++ "\n\n" ++ dispD c.context := by
  exact ⟨rfl, rfl, rfl⟩

/-- Claim C6: in the reduced variant, a `Context` carries nothing beyond
its message (every value equals `new` of its own message, so no cause is
obtainable from it), and Debug output equals Display output, both being
exactly the message text. -/
theorem C6_reduced_no_cause_debug_eq_display (D : Type) (dispD : D → String)
    (c : WithoutStd.Context D) :
    c = WithoutStd.Context.new c.get_context ∧
    c.debugFmt dispD = c.displayFmt dispD ∧
    c.displayFmt dispD = dispD c.get_context := by
  exact ⟨rfl, rfl, rfl⟩

/-- Claim C7: in the reduced variant, `with_err(m, e)` discards the error
entirely, so the result is the very same value as `new(m)` — hence
observably identical through `get_context`, Display and Debug. -/
theorem C7_reduced_with_err_discards_error (D : Type) (E : Type)
    (dispD : D → String) (m : D) (e : E) :
    WithoutStd.Context.with_err m e = WithoutStd.Context.new m ∧
    (WithoutStd.Context.with_err m e).get_context =
      (WithoutStd.Context.new m).get_context ∧
    (WithoutStd.Context.with_err m e).displayFmt dispD =
      (WithoutStd.Context.new m).displayFmt dispD ∧
    (WithoutStd.Context.with_err m e).debugFmt dispD =
      (WithoutStd.Context.new m).debugFmt dispD := by
  exact ⟨rfl, rfl, rfl, rfl⟩

/-- Claim C8: for the same message value, the Display output of a
`Context` is identical in the full-featured and reduced variants, for
both construction paths. -/
theorem C8_display_agrees_across_variants (D : Type) (dispD : D → String)
    (m : D) (bt : Backtrace) (e : Error) (E : Type) (e₂ : E) :
    (WithStd.Context.new m bt).displayFmt dispD =
      (WithoutStd.Context.new m).displayFmt dispD ∧
    (WithStd.Context.with_err m e).displayFmt dispD =
      (WithoutStd.Context.with_err m e₂).displayFmt dispD := by
  exact ⟨rfl, rfl⟩

/-- Claim C9: in the full-featured variant, `cause()` on a reachable
`Context` is `Some` exactly when the `Context` was constructed via
`with_err`; the prior-error arm wraps the held error's (total) `cause()`
result in `Some` unconditionally, and the `new` arm yields `None`. -/
theorem C9_cause_some_iff_with_err (D : Type) (c : WithStd.Context D)
    (h : c.Reachable) :
    c.cause.isSome = true ↔ ∃ m e, c = WithStd.Context.with_err m e := by
  cases h with
  | viaNew m bt =>
      constructor
      · intro hs
        exact absurd hs (by simp [WithStd.Context.cause, WithStd.Context.new,
          WithStd.Either.cause])
      · rintro ⟨m₂, e₂, he⟩
        exact absurd (congrArg (fun c => WithStd.Context.failure c) he)
          (by simp [WithStd.Context.new, WithStd.Context.with_err])
  | viaWithErr m e =>
      constructor
      · intro _
        exact ⟨m, e, rfl⟩
      · intro _
        rfl

/-- Witness for C9 at a concrete reachable `Context` built by `with_err`. -/
theorem C9_cause_some_iff_with_err_witness :
    (WithStd.Context.with_err "msg"
        (Error.mk "dbg" (Fail.mk "fd" "fb") (Backtrace.mk "bt"))).cause.isSome = true ↔
    ∃ m e, WithStd.Context.with_err "msg"
        (Error.mk "dbg" (Fail.mk "fd" "fb") (Backtrace.mk "bt")) =
      WithStd.Context.with_err m e :=
  C9_cause_some_iff_with_err String
    (WithStd.Context.with_err "msg"
      (Error.mk "dbg" (Fail.mk "fd" "fb") (Backtrace.mk "bt")))
    (WithStd.Context.Reachable.viaWithErr "msg"
      (Error.mk "dbg" (Fail.mk "fd" "fb") (Backtrace.mk "bt")))

/-- Claim C10: in the full-featured variant, Display output and
`get_context` depend only on the `context` field: two `Context`s with
equal messages but arbitrary (possibly different) `failure` fields have
identical Display outputs and `get_context` results. -/
theorem C10_display_independent_of_failure (D : Type) (dispD : D → String)
    (c₁ c₂ : WithStd.Context D) (h : c₁.context = c₂.context) :
    c₁.displayFmt dispD = c₂.displayFmt dispD ∧
    c₁.get_context = c₂.get_context := by
  exact ⟨congrArg dispD h, h⟩

/-- Witness for C10 at two concrete `Context`s sharing a message but with
different causes. -/
theorem C10_display_independent_of_failure_witness :
    (WithStd.Context.mk "msg" (WithStd.Either.This (Backtrace.mk "bt"))).context =
      (WithStd.Context.mk "msg"
        (WithStd.Either.That
          (Error.mk "dbg" (Fail.mk "fd" "fb") (Backtrace.mk "eb")))).context ∧
    ((WithStd.Context.mk "msg"
        (WithStd.Either.This (Backtrace.mk "bt"))).displayFmt id =
      (WithStd.Context.mk "msg"
        (WithStd.Either.That
          (Error.mk "dbg" (Fail.mk "fd" "fb") (Backtrace.mk "eb")))).displayFmt id ∧
    (WithStd.Context.mk "msg"
        (WithStd.Either.This (Backtrace.mk "bt"))).get_context =
      (WithStd.Context.mk "msg"
        (WithStd.Either.That
          (Error.mk "dbg" (Fail.mk "fd" "fb") (Backtrace.mk "eb")))).get_context) :=
  ⟨rfl, C10_display_independent_of_failure String id
    (WithStd.Context.mk "msg" (WithStd.Either.This (Backtrace.mk "bt")))
    (WithStd.Context.mk "msg"
      (WithStd.Either.That
        (Error.mk "dbg" (Fail.mk "fd" "fb") (Backtrace.mk "eb")))) rfl⟩
